import Mathlib

/-!
Verification of the `checksb` differential-testing harness
(`src/checksb/checksb.py`).

The script drives two SQL engines (`bendsql` and `snowsql`) through shared
SQL script fixtures, classifies each invocation's textual output, and
compares the two engines' outputs statement by statement.

The embedding below translates the Python source into Lean:
* strings are Lean `String`s (ASCII model of Python's `str` operations:
  `.lower()`, `.strip()`, `in`, `.split(";")`, and the regex
  `--\s*([\w-]+):` used for test identifiers);
* the two external engine processes are opaque: an environment
  `Env : Engine → String → EngineResp` supplies, for each engine and query
  string, the captured stdout, stderr, exit code and wall-clock duration of
  the invocation;
* `sys.exit(1)` is modelled by returning `none` / setting a `fatal` flag;
* wall-clock time is a `Nat` clock that advances by each invocation's
  duration, so that start/end timestamps and elapsed times can be stated.
-/

/-- ASCII model of Python's `str.isspace` characters, as used by
`str.strip()` and the regex class `\s`. -/
def pyIsSpace (c : Char) : Bool :=
  c = ' ' || c = '\t' || c = '\n' || c = '\r' || c = '\x0b' || c = '\x0c'

/-- Python `str.strip()` on the character list: drop whitespace from both
ends. -/
def stripChars (l : List Char) : List Char :=
  ((l.dropWhile pyIsSpace).reverse.dropWhile pyIsSpace).reverse

/-- Python `str.strip()` as a `String` operation. -/
def stripStr (s : String) : String :=
  ⟨stripChars s.data⟩

/-- `leadsWith pat l` : the character list `pat` is a prefix of `l`. -/
def leadsWith : List Char → List Char → Bool
  | [], _ => true
  | _ :: _, [] => false
  | p :: ps, c :: cs => p == c && leadsWith ps cs

/-- `containsList pat l` : Python's substring test `pat in l`. -/
def containsList (pat : List Char) : List Char → Bool
  | [] => leadsWith pat []
  | c :: rest => leadsWith pat (c :: rest) || containsList pat rest

/-- Python's substring test `pat in s` on `String`s. -/
def containsStr (s pat : String) : Bool :=
  containsList pat.data s.data

/-- Python `str.lower()` (ASCII model): lowercase every character. -/
def lowerStr (s : String) : String :=
  ⟨s.data.map Char.toLower⟩

/-- Python `text.split(";")`: split on every occurrence of the separator,
keeping empty fragments (between adjacent separators and at both ends). -/
def splitOnChar (sep : Char) : List Char → List (List Char)
  | [] => [[]]
  | c :: rest =>
    match splitOnChar sep rest with
    | [] => [[]]
    | h :: t => if c = sep then [] :: h :: t else (c :: h) :: t

/-- `sql_script.split(";")` from `execute_sql_scripts` (line 92) and
`run_check_sql` (line 109). -/
def split_on_semicolons (script : String) : List String :=
  (splitOnChar ';' script.data).map (⟨·⟩)

/-- The ordered list of statements the script loops actually process:
the raw `split(";")` fragments `query` for which `query.strip()` is truthy
(`execute_sql_scripts` lines 93-94, `run_check_sql` lines 111-112).  The
fragments themselves are passed on unstripped. -/
def script_statements (script : String) : List String :=
  (split_on_semicolons script).filter (fun q => !(stripChars q.data).isEmpty)

/-- The two external SQL engines driven by the harness. -/
inductive Engine
  | bendsql
  | snowsql
deriving DecidableEq, Repr

/-- The captured outcome of one external process invocation
(`subprocess.run(..., capture_output=True, check=False)`, line 59):
stdout, stderr, the process exit code, and the invocation's wall-clock
duration.  `check=False` means a non-zero exit code never raises. -/
structure EngineResp where
  stdout : String
  stderr : String
  exitCode : Int
  dur : Nat
deriving DecidableEq, Repr

/-- The opaque engines: for each engine and query string, the response of
running that query through the engine's command-line client. -/
abbrev Env := Engine → String → EngineResp

/-- Classification of one invocation (spec §3 `ExecutionResult`):
determined solely from the statement text and the raw stdout/stderr. -/
inductive ExecClass
  | success
  | toleratedError
  | fatalError
deriving DecidableEq, Repr

/-- The classification performed by `execute_sql` (lines 63-76), in source
order, first match wins:
1. `"DROP DATABASE" in query and "Unknown database" in (output + error)`
   → tolerated (return stdout);
2. `"error" in output.lower() or "error" in error.lower() or
   "unknown function" in output.lower()` → fatal (`sys.exit(1)`), unless
   `"DROP DATABASE" in query`, in which case tolerated (return stdout);
3. otherwise success (return stdout). -/
def classify_sql (query output error : String) : ExecClass :=
  if containsStr query "DROP DATABASE" && containsStr (output ++ error) "Unknown database" then
    ExecClass.toleratedError
  else if containsStr (lowerStr output) "error" || containsStr (lowerStr error) "error"
      || containsStr (lowerStr output) "unknown function" then
    if containsStr query "DROP DATABASE" then ExecClass.toleratedError
    else ExecClass.fatalError
  else
    ExecClass.success

/-- `execute_sql(query, sql_tool, database, warehouse)` (lines 39-85),
given the invocation's captured response `r`.  Every non-fatal path
returns `result.stdout`; the fatal path calls `sys.exit(1)`, modelled as
`none`.  The exit code and duration fields of `r` are never consulted. -/
def execute_sql (query : String) (r : EngineResp) : Option String :=
  match classify_sql query r.stdout r.stderr with
  | ExecClass.fatalError => none
  | _ => some r.stdout

/-- ASCII model of the regex character class `[\w-]` from
`re.search(r"--\s*([\w-]+):", query)` (line 114): word characters
(letters, digits, underscore) and the hyphen. -/
def isIdentChar (c : Char) : Bool :=
  c.isAlphanum || c = '_' || c = '-'

/-- Matching of the regex `--\s*([\w-]+):` anchored at the start of `l`:
the literal `--`, then greedily consumed whitespace, then a maximal
non-empty run of `[\w-]` characters, which must be followed by `:`.
(Greedy matching is exact here: `\s`, `[\w-]` and `:` are pairwise
disjoint character classes, so the regex engine never backtracks into a
successful match and never recovers by backtracking from a failed one.) -/
def matchIdentAt : List Char → Option (List Char)
  | c₁ :: c₂ :: rest =>
    if c₁ = '-' ∧ c₂ = '-' then
      if (rest.dropWhile pyIsSpace).takeWhile isIdentChar ≠ [] ∧
          ((rest.dropWhile pyIsSpace).dropWhile isIdentChar).head? = some ':' then
        some ((rest.dropWhile pyIsSpace).takeWhile isIdentChar)
      else none
    else none
  | _ => none

/-- `re.search` semantics: try each start position from the left; the
first position with a match wins. -/
def searchIdent : List Char → Option (List Char)
  | [] => none
  | c :: rest =>
    match matchIdentAt (c :: rest) with
    | some tok => some tok
    | none => searchIdent rest

/-- The test-identifier extraction of `run_check_sql` (lines 114-115):
`match.group(1).strip()` when `re.search(r"--\s*([\w-]+):", query)`
matches, and the sentinel `"Unknown Query"` otherwise. -/
def query_identifier (q : String) : String :=
  match searchIdent q.data with
  | some tok => stripStr ⟨tok⟩
  | none => "Unknown Query"

/-- The statement `l` contains an occurrence of the identifier-comment
pattern `--\s*([\w-]+):` somewhere: it decomposes as some prefix, the
literal `--`, whitespace, a non-empty `[\w-]` token and a colon. -/
def HasIdentComment (l : List Char) : Prop :=
  ∃ pre ws tok rest : List Char,
    (∀ c ∈ ws, pyIsSpace c = true) ∧ tok ≠ [] ∧ (∀ c ∈ tok, isIdentChar c = true) ∧
    l = pre ++ '-' :: '-' :: (ws ++ tok ++ ':' :: rest)

/-- One recorded engine invocation of the check loop, with the clock
value when it started and when it completed. -/
structure ExecEv where
  engine : Engine
  query : String
  startTime : Nat
  endTime : Nat
deriving DecidableEq, Repr

/-- The accumulated outcome of `run_check_sql`:
`passed_tests` entries `(identifier, elapsed)`, `failed_tests` entries
`(identifier, bend_result, snow_result)`, and the chronological trace of
engine invocations performed. -/
structure CheckReport where
  passed : List (String × Nat)
  failed : List (String × String × String)
  trace : List ExecEv
deriving DecidableEq, Repr

/-- The statement loop of `run_check_sql` (lines 111-138).  For each
statement, in source order: read the clock (`start_time = time.time()`),
run the statement through bendsql, then through snowsql (each via
`fetch_query_results`, a pass-through to `execute_sql`), read the clock
again, and record either one passed entry `(identifier, elapsed)` when
the two result texts are equal, or one failed entry
`(identifier, bend_result, snow_result)` when they differ.  A fatal
classification in either invocation is `sys.exit(1)`: the whole run
aborts (`none`).  The clock advances by each invocation's duration. -/
def run_check_loop (env : Env) : List String → Nat → Option CheckReport
  | [], _ => some ⟨[], [], []⟩
  | q :: rest, clock =>
    let startTime := clock
    let rb := env Engine.bendsql q
    match execute_sql q rb with
    | none => none
    | some bendResult =>
      let rs := env Engine.snowsql q
      match execute_sql q rs with
      | none => none
      | some snowResult =>
        let endTime := clock + rb.dur + rs.dur
        let elapsed := endTime - startTime
        let evB : ExecEv := ⟨Engine.bendsql, q, startTime, clock + rb.dur⟩
        let evS : ExecEv := ⟨Engine.snowsql, q, clock + rb.dur, endTime⟩
        match run_check_loop env rest endTime with
        | none => none
        | some r =>
          if bendResult ≠ snowResult then
            some ⟨r.passed, (query_identifier q, bendResult, snowResult) :: r.failed,
                  evB :: evS :: r.trace⟩
          else
            some ⟨(query_identifier q, elapsed) :: r.passed, r.failed,
                  evB :: evS :: r.trace⟩

/-- `run_check_sql(database_name, warehouse, script_path)`
(lines 103-155), given the check script's text: split it on `;`, keep the
statements with non-empty `strip()`, and run the comparison loop. -/
def run_check_sql (env : Env) (script : String) : Option CheckReport :=
  run_check_loop env (script_statements script) 0

/-- One `execute_sql` call as issued by `setup_database`: the query text
and the database the connection targets. -/
structure SqlCall where
  query : String
  database : String
deriving DecidableEq, Repr

/-- Outcome of `setup_database`: the `execute_sql` invocations issued in
order, and whether the run was terminated by `sys.exit(1)`. -/
structure SetupResult where
  calls : List SqlCall
  fatal : Bool
deriving DecidableEq, Repr

/-- `setup_database(database_name, sql_tool)` (lines 158-178).
For bendsql: `DROP DATABASE IF EXISTS {db};` against the `"default"`
bootstrap database inside `try/except Exception` (which swallows ordinary
exceptions but not `SystemExit`), then `CREATE DATABASE {db};` against
`"default"`.  For snowsql: the same two queries, both targeted directly
at `database_name`.  A fatal classification (`sys.exit(1)`) terminates
the run at that call. -/
def setup_database (env : Env) (database_name : String) (sql_tool : Engine) : SetupResult :=
  match sql_tool with
  | Engine.bendsql =>
    let dropQ := "DROP DATABASE IF EXISTS " ++ database_name ++ ";"
    let createQ := "CREATE DATABASE " ++ database_name ++ ";"
    match execute_sql dropQ (env Engine.bendsql dropQ) with
    | none => ⟨[⟨dropQ, "default"⟩], true⟩
    | some _ =>
      match execute_sql createQ (env Engine.bendsql createQ) with
      | none => ⟨[⟨dropQ, "default"⟩, ⟨createQ, "default"⟩], true⟩
      | some _ => ⟨[⟨dropQ, "default"⟩, ⟨createQ, "default"⟩], false⟩
  | Engine.snowsql =>
    let dropQ := "DROP DATABASE IF EXISTS " ++ database_name ++ ";"
    let createQ := "CREATE DATABASE " ++ database_name ++ ";"
    match execute_sql dropQ (env Engine.snowsql dropQ) with
    | none => ⟨[⟨dropQ, database_name⟩], true⟩
    | some _ =>
      match execute_sql createQ (env Engine.snowsql createQ) with
      | none => ⟨[⟨dropQ, database_name⟩, ⟨createQ, database_name⟩], true⟩
      | some _ => ⟨[⟨dropQ, database_name⟩, ⟨createQ, database_name⟩], false⟩

/-- The command-line arguments of the harness (`parse_arguments`,
lines 9-36): `--database`, `--warehouse` (default `COMPUTE_WH`),
`--run-check-only`, `--case`, `--runbend`, `--runsnow`. -/
structure Args where
  database : String
  warehouse : String
  run_check_only : Bool
  caseName : String
  runbend : Bool
  runsnow : Bool

/-- The orchestration-level actions `main` sequences: database
provisioning (`setup_database`), running one script file against one
engine (`execute_sql_scripts`), and the comparison phase
(`run_check_sql`, which always drives both engines). -/
inductive Step
  | provision (tool : Engine) (database : String)
  | runScript (tool : Engine) (path : String) (database : String) (warehouse : Option String)
  | check (database : String) (warehouse : String) (path : String)
deriving DecidableEq, Repr

/-- `setup_and_execute(sql_tool, base_sql_dir, database_name, warehouse)`
(lines 181-192): provision the database, then run
`{base_sql_dir}/{setup_dir}/setup.sql` and `{base_sql_dir}/action.sql`
for the one engine. -/
def setup_and_execute (sql_tool : Engine) (base_sql_dir database_name : String)
    (warehouse : Option String) : List Step :=
  let setup_dir := match sql_tool with
    | Engine.bendsql => "bend"
    | Engine.snowsql => "snow"
  [Step.provision sql_tool database_name,
   Step.runScript sql_tool (base_sql_dir ++ "/" ++ setup_dir ++ "/setup.sql") database_name warehouse,
   Step.runScript sql_tool (base_sql_dir ++ "/action.sql") database_name warehouse]

namespace Checksb

/-- `main()` (lines 195-220) as the sequence of orchestration steps it
performs for the given arguments.  With `--run-check-only` only the
comparison runs; otherwise the selected engine pipelines run (bendsql is
invoked without a warehouse, snowsql with the warehouse argument),
followed by the comparison against `check.sql`. -/
def main (args : Args) : List Step :=
  let base_sql_dir := "sql/" ++ args.caseName
  if args.run_check_only then
    [Step.check args.database args.warehouse (base_sql_dir ++ "/check.sql")]
  else
    (if args.runbend then
      setup_and_execute Engine.bendsql base_sql_dir args.database none
    else if args.runsnow then
      setup_and_execute Engine.snowsql base_sql_dir args.database (some args.warehouse)
    else
      setup_and_execute Engine.bendsql base_sql_dir args.database none
        ++ setup_and_execute Engine.snowsql base_sql_dir args.database (some args.warehouse))
    ++ [Step.check args.database args.warehouse (base_sql_dir ++ "/check.sql")]

end Checksb

/-- A statement's two invocations in the check loop are both non-fatal
(neither engine's classified output triggers `sys.exit(1)`). -/
abbrev NonFatal (env : Env) (q : String) : Prop :=
  execute_sql q (env Engine.bendsql q) ≠ none ∧ execute_sql q (env Engine.snowsql q) ≠ none

/-- Specification-side description of `passed_tests` (spec §4.4, §8): one
Match record `(identifier, elapsed-spanning-both-executions)` for exactly
the statements, in order, whose two result texts are equal as strings. -/
def specPassed (env : Env) : List String → List (String × Nat)
  | [] => []
  | q :: rest =>
    if (env Engine.bendsql q).stdout = (env Engine.snowsql q).stdout then
      (query_identifier q, (env Engine.bendsql q).dur + (env Engine.snowsql q).dur)
        :: specPassed env rest
    else specPassed env rest

/-- Specification-side description of `failed_tests` (spec §4.4, §8): one
Mismatch record preserving both engines' returned result texts verbatim,
for exactly the statements, in order, whose result texts differ. -/
def specFailed (env : Env) : List String → List (String × String × String)
  | [] => []
  | q :: rest =>
    if (env Engine.bendsql q).stdout = (env Engine.snowsql q).stdout then
      specFailed env rest
    else
      (query_identifier q, (env Engine.bendsql q).stdout, (env Engine.snowsql q).stdout)
        :: specFailed env rest

/-- Specification-side description of the invocation trace (spec §5): for
each statement in file order, one bendsql execution followed by one
snowsql execution, each starting exactly when the previous invocation
ended. -/
def specTrace (env : Env) (clock : Nat) : List String → List ExecEv
  | [] => []
  | q :: rest =>
    let tb := clock + (env Engine.bendsql q).dur
    let ts := tb + (env Engine.snowsql q).dur
    ⟨Engine.bendsql, q, clock, tb⟩ :: ⟨Engine.snowsql, q, tb, ts⟩ :: specTrace env ts rest

/-- Specification-side description of the order of engine invocations
(spec §5): statements in strict file order, bendsql then snowsql within
each statement. -/
def enginePairs : List String → List (Engine × String)
  | [] => []
  | q :: rest => (Engine.bendsql, q) :: (Engine.snowsql, q) :: enginePairs rest

/-- A concrete pair of engines used to instantiate the comparator
theorems: both answer `SELECT 1` identically, and disagree on every other
query. -/
def envW : Env := fun e q =>
  match e with
  | Engine.bendsql => if q = "SELECT 1" then ⟨"1", "", 0, 2⟩ else ⟨"2", "", 0, 2⟩
  | Engine.snowsql => if q = "SELECT 1" then ⟨"1", "", 0, 3⟩ else ⟨"9", "", 0, 3⟩


/-! ### Helper lemmas: lists and characters -/

lemma dropWhile_append_all {α : Type} {p : α → Bool} {l : List α} :
    ∀ ws : List α, (∀ c ∈ ws, p c = true) → (ws ++ l).dropWhile p = l.dropWhile p := by
  intro ws
  induction ws with
  | nil => intro _; rfl
  | cons c cs ih =>
    intro h
    simp only [List.cons_append, List.dropWhile, h c (by simp)]
    exact ih (fun x hx => h x (by simp [hx]))

lemma dropWhile_cons_neg {α : Type} {p : α → Bool} {c : α} {l : List α} (h : p c = false) :
    (c :: l).dropWhile p = c :: l := by
  simp [List.dropWhile, h]

lemma takeWhile_append_stop {α : Type} {p : α → Bool} {x : α} {r : List α} (hx : p x = false) :
    ∀ tok : List α, (∀ c ∈ tok, p c = true) → (tok ++ x :: r).takeWhile p = tok := by
  intro tok
  induction tok with
  | nil => intro _; simp [List.takeWhile, hx]
  | cons c cs ih =>
    intro h
    simp only [List.cons_append, List.takeWhile, h c (by simp)]
    simp [ih (fun y hy => h y (by simp [hy]))]

lemma dropWhile_append_stop {α : Type} {p : α → Bool} {x : α} {r : List α} (hx : p x = false) :
    ∀ tok : List α, (∀ c ∈ tok, p c = true) → (tok ++ x :: r).dropWhile p = x :: r := by
  intro tok
  induction tok with
  | nil => intro _; simp [List.dropWhile, hx]
  | cons c cs ih =>
    intro h
    simp only [List.cons_append, List.dropWhile, h c (by simp)]
    exact ih (fun y hy => h y (by simp [hy]))

lemma dropWhile_all_neg {α : Type} {p : α → Bool} :
    ∀ l : List α, (∀ c ∈ l, p c = false) → l.dropWhile p = l := by
  intro l
  induction l with
  | nil => intro _; rfl
  | cons c cs ih =>
    intro h
    simp [List.dropWhile, h c (by simp)]

lemma mem_takeWhile_p {α : Type} {p : α → Bool} :
    ∀ {l : List α} {a : α}, a ∈ l.takeWhile p → p a = true := by
  intro l
  induction l with
  | nil => intro a h; simp [List.takeWhile] at h
  | cons c cs ih =>
    intro a h
    by_cases hc : p c
    · simp only [List.takeWhile, hc] at h
      rcases List.mem_cons.mp h with rfl | h'
      · exact hc
      · exact ih h'
    · simp [List.takeWhile, hc] at h

lemma space_not_identChar {c : Char} (h : pyIsSpace c = true) : isIdentChar c = false := by
  simp only [pyIsSpace, Bool.or_eq_true, decide_eq_true_eq] at h
  rcases h with ((((h | h) | h) | h) | h) | h <;> subst h <;> decide

lemma identChar_not_space {c : Char} (h : isIdentChar c = true) : pyIsSpace c = false := by
  cases hs : pyIsSpace c
  · rfl
  · rw [space_not_identChar hs] at h
    exact absurd h (by simp)

/-! ### Helper lemmas: the substring test -/

lemma leadsWith_append_of {pat l₁ : List Char} (l₂ : List Char) (h : leadsWith pat l₁ = true) :
    leadsWith pat (l₁ ++ l₂) = true := by
  induction pat generalizing l₁ with
  | nil => simp [leadsWith]
  | cons p ps ih =>
    cases l₁ with
    | nil => simp [leadsWith] at h
    | cons c cs =>
      simp only [leadsWith, Bool.and_eq_true] at h
      simp only [List.cons_append, leadsWith, Bool.and_eq_true]
      exact ⟨h.1, ih h.2⟩

lemma containsList_of_leads {pat l : List Char} (h : leadsWith pat l = true) :
    containsList pat l = true := by
  cases l with
  | nil => simpa [containsList] using h
  | cons c cs => simp [containsList, h]

lemma containsStr_head (s t pat : String) (h : leadsWith pat.data s.data = true) :
    containsStr (s ++ t) pat = true := by
  unfold containsStr
  rw [String.data_append]
  exact containsList_of_leads (leadsWith_append_of _ h)

lemma strAppend_assoc (a b c : String) : a ++ b ++ c = a ++ (b ++ c) := by
  apply String.ext
  simp [String.data_append, List.append_assoc]

lemma containsStr_dropQ (db : String) :
    containsStr ("DROP DATABASE IF EXISTS " ++ db ++ ";") "DROP DATABASE" = true := by
  rw [strAppend_assoc]
  exact containsStr_head "DROP DATABASE IF EXISTS " (db ++ ";") "DROP DATABASE" (by decide)

/-! ### Helper lemmas: classification -/

lemma execute_sql_some {q : String} {r : EngineResp}
    (h : classify_sql q r.stdout r.stderr ≠ ExecClass.fatalError) :
    execute_sql q r = some r.stdout := by
  unfold execute_sql
  rcases hc : classify_sql q r.stdout r.stderr
  · rfl
  · rfl
  · exact absurd hc h

lemma execute_sql_none_iff {q : String} {r : EngineResp} :
    execute_sql q r = none ↔ classify_sql q r.stdout r.stderr = ExecClass.fatalError := by
  unfold execute_sql
  rcases hc : classify_sql q r.stdout r.stderr <;> simp [hc]

lemma execute_sql_of_ne_none {q : String} {r : EngineResp} (h : execute_sql q r ≠ none) :
    execute_sql q r = some r.stdout := by
  refine execute_sql_some (fun hc => h ?_)
  exact execute_sql_none_iff.mpr hc

lemma classify_drop_not_fatal {q out err : String} (hq : containsStr q "DROP DATABASE" = true) :
    classify_sql q out err ≠ ExecClass.fatalError := by
  unfold classify_sql
  rw [hq]
  split
  · simp
  · split <;> simp

/-! ### Helper lemmas: identifier extraction -/

lemma matchIdentAt_cons_cons (c₁ c₂ : Char) (rest : List Char) :
    matchIdentAt (c₁ :: c₂ :: rest) =
      if c₁ = '-' ∧ c₂ = '-' then
        if (rest.dropWhile pyIsSpace).takeWhile isIdentChar ≠ [] ∧
            ((rest.dropWhile pyIsSpace).dropWhile isIdentChar).head? = some ':' then
          some ((rest.dropWhile pyIsSpace).takeWhile isIdentChar)
        else none
      else none := rfl

lemma searchIdent_cons (c : Char) (r : List Char) :
    searchIdent (c :: r) =
      match matchIdentAt (c :: r) with
      | some tok => some tok
      | none => searchIdent r := rfl

lemma matchIdentAt_pattern {ws tok rest : List Char}
    (hws : ∀ c ∈ ws, pyIsSpace c = true) (htok : tok ≠ [])
    (hc : ∀ c ∈ tok, isIdentChar c = true) :
    matchIdentAt ('-' :: '-' :: (ws ++ tok ++ ':' :: rest)) = some tok := by
  obtain ⟨t, tok', rfl⟩ : ∃ t tok', tok = t :: tok' := by
    cases tok with
    | nil => exact absurd rfl htok
    | cons t tok' => exact ⟨t, tok', rfl⟩
  have h1 : ((ws ++ (t :: tok')) ++ ':' :: rest).dropWhile pyIsSpace = (t :: tok') ++ ':' :: rest := by
    rw [List.append_assoc, dropWhile_append_all ws hws]
    exact dropWhile_cons_neg (identChar_not_space (hc t (by simp)))
  have h2 : ((t :: tok') ++ ':' :: rest).takeWhile isIdentChar = t :: tok' :=
    takeWhile_append_stop (by decide) _ hc
  have h3 : ((t :: tok') ++ ':' :: rest).dropWhile isIdentChar = ':' :: rest :=
    dropWhile_append_stop (by decide) _ hc
  rw [matchIdentAt_cons_cons, if_pos ⟨rfl, rfl⟩, h1, h2, h3]
  rw [if_pos ⟨by simp, rfl⟩]

lemma matchIdentAt_cons_ne {c : Char} (h : c ≠ '-') (l : List Char) :
    matchIdentAt (c :: l) = none := by
  cases l with
  | nil => rfl
  | cons d r => exact if_neg (fun hx => h hx.1)

lemma searchIdent_of_matched {l tok : List Char} (h : matchIdentAt l = some tok) :
    searchIdent l = some tok := by
  cases l with
  | nil => simp [matchIdentAt] at h
  | cons c r => simp [searchIdent, h]

lemma searchIdent_skip {pre : List Char} (h : ∀ c ∈ pre, c ≠ '-') (l : List Char) :
    searchIdent (pre ++ l) = searchIdent l := by
  induction pre with
  | nil => rfl
  | cons c cs ih =>
    have hm : matchIdentAt (c :: (cs ++ l)) = none := matchIdentAt_cons_ne (h c (by simp)) _
    have hstep : searchIdent ((c :: cs) ++ l) = searchIdent (cs ++ l) := by
      rw [List.cons_append, searchIdent_cons, hm]
    rw [hstep]
    exact ih (fun x hx => h x (by simp [hx]))

lemma matchIdentAt_sound {l tok : List Char} (h : matchIdentAt l = some tok) :
    ∃ ws rest : List Char,
      (∀ c ∈ ws, pyIsSpace c = true) ∧ tok ≠ [] ∧ (∀ c ∈ tok, isIdentChar c = true) ∧
      l = '-' :: '-' :: (ws ++ tok ++ ':' :: rest) := by
  cases l with
  | nil => simp [matchIdentAt] at h
  | cons c₁ t =>
    cases t with
    | nil => simp [matchIdentAt] at h
    | cons c₂ r =>
      rw [matchIdentAt_cons_cons] at h
      by_cases hd : c₁ = '-' ∧ c₂ = '-'
      · rw [if_pos hd] at h
        by_cases hcond : (r.dropWhile pyIsSpace).takeWhile isIdentChar ≠ [] ∧
            ((r.dropWhile pyIsSpace).dropWhile isIdentChar).head? = some ':'
        · rw [if_pos hcond] at h
          have htok : tok = (r.dropWhile pyIsSpace).takeWhile isIdentChar :=
            (Option.some.inj h).symm
          obtain ⟨x, xs, hx⟩ : ∃ x xs, (r.dropWhile pyIsSpace).dropWhile isIdentChar = x :: xs := by
            rcases hdw : (r.dropWhile pyIsSpace).dropWhile isIdentChar with _ | ⟨x, xs⟩
            · rw [hdw] at hcond
              simp at hcond
            · exact ⟨x, xs, rfl⟩
          have hx' : x = ':' := by
            have := hcond.2
            rw [hx] at this
            simpa using this
          refine ⟨r.takeWhile pyIsSpace, xs, ?_, htok ▸ hcond.1, ?_, ?_⟩
          · exact fun c hcmem => mem_takeWhile_p hcmem
          · intro c hcmem
            rw [htok] at hcmem
            exact mem_takeWhile_p hcmem
          · rw [hd.1, hd.2, htok]
            have hr1 : r = r.takeWhile pyIsSpace ++ r.dropWhile pyIsSpace :=
              (List.takeWhile_append_dropWhile pyIsSpace r).symm
            have hr2 : r.dropWhile pyIsSpace =
                (r.dropWhile pyIsSpace).takeWhile isIdentChar ++
                  (r.dropWhile pyIsSpace).dropWhile isIdentChar :=
              (List.takeWhile_append_dropWhile isIdentChar (r.dropWhile pyIsSpace)).symm
            rw [hx, hx'] at hr2
            simp only [List.append_assoc]
            rw [← hr2, ← hr1]
        · rw [if_neg hcond] at h
          simp at h
      · rw [if_neg hd] at h
        simp at h

lemma searchIdent_sound : ∀ {l tok : List Char}, searchIdent l = some tok → HasIdentComment l := by
  intro l
  induction l with
  | nil => intro tok h; simp [searchIdent] at h
  | cons c r ih =>
    intro tok h
    rcases hm : matchIdentAt (c :: r) with _ | t
    · simp only [searchIdent, hm] at h
      obtain ⟨pre, ws, tok', rest, h1, h2, h3, heq⟩ := ih h
      exact ⟨c :: pre, ws, tok', rest, h1, h2, h3, by simp [heq]⟩
    · simp only [searchIdent, hm] at h
      obtain ⟨ws, rest, h1, h2, h3, heq⟩ := matchIdentAt_sound hm
      exact ⟨[], ws, t, rest, h1, h2, h3, by simp [heq]⟩

lemma hasIdentComment_dash {l : List Char} (h : HasIdentComment l) : '-' ∈ l := by
  obtain ⟨pre, ws, tok, rest, -, -, -, rfl⟩ := h
  simp

lemma stripChars_ident {tok : List Char} (hc : ∀ c ∈ tok, isIdentChar c = true) :
    stripChars tok = tok := by
  unfold stripChars
  rw [dropWhile_all_neg tok (fun c h => identChar_not_space (hc c h))]
  rw [dropWhile_all_neg tok.reverse (fun c h => identChar_not_space (hc c (List.mem_reverse.mp h)))]
  exact List.reverse_reverse tok

lemma query_identifier_of_leading {ws tok rest : List Char}
    (hws : ∀ c ∈ ws, pyIsSpace c = true) (htok : tok ≠ [])
    (hc : ∀ c ∈ tok, isIdentChar c = true) :
    query_identifier ⟨'-' :: '-' :: (ws ++ tok ++ ':' :: rest)⟩ = ⟨tok⟩ := by
  have hs : searchIdent (⟨'-' :: '-' :: (ws ++ tok ++ ':' :: rest)⟩ : String).data = some tok :=
    searchIdent_of_matched (matchIdentAt_pattern hws htok hc)
  unfold query_identifier
  rw [hs]
  show stripStr ⟨tok⟩ = ⟨tok⟩
  exact congrArg (fun l => (⟨l⟩ : String)) (stripChars_ident hc)

/-! ### Helper lemmas: statement splitting -/

lemma splitOnChar_ne_nil (sep : Char) (l : List Char) : splitOnChar sep l ≠ [] := by
  cases l with
  | nil => simp [splitOnChar]
  | cons c rest =>
    simp only [splitOnChar]
    split
    · simp
    · split <;> simp

lemma sep_not_mem_splitOnChar (sep : Char) :
    ∀ l f, f ∈ splitOnChar sep l → sep ∉ f := by
  intro l
  induction l with
  | nil =>
    intro f hf
    simp [splitOnChar] at hf
    simp [hf]
  | cons c rest ih =>
    intro f hf
    rcases hs : splitOnChar sep rest with _ | ⟨h, t⟩
    · exact absurd hs (splitOnChar_ne_nil sep rest)
    · simp only [splitOnChar, hs] at hf
      by_cases hc : c = sep
      · rw [if_pos hc] at hf
        rcases List.mem_cons.mp hf with rfl | hf'
        · simp
        · exact ih f (hs ▸ hf')
      · rw [if_neg hc] at hf
        rcases List.mem_cons.mp hf with rfl | hf'
        · intro hmem
          rcases List.mem_cons.mp hmem with rfl | hmem'
          · exact hc rfl
          · exact ih h (hs ▸ (by simp)) hmem'
        · exact ih f (hs ▸ (by simp [hf']))

lemma splitOnChar_no_sep (sep : Char) :
    ∀ l : List Char, sep ∉ l → splitOnChar sep l = [l] := by
  intro l
  induction l with
  | nil => intro _; rfl
  | cons c rest ih =>
    intro h
    have hc : c ≠ sep := fun hx => h (by simp [hx])
    have hrest : splitOnChar sep rest = [rest] := ih (fun hx => h (by simp [hx]))
    simp [splitOnChar, hrest, hc]

/-! ### Helper lemmas: the comparison loop -/

lemma run_check_loop_eq (env : Env) :
    ∀ (stmts : List String) (clock : Nat), (∀ q ∈ stmts, NonFatal env q) →
    run_check_loop env stmts clock =
      some ⟨specPassed env stmts, specFailed env stmts, specTrace env clock stmts⟩ := by
  intro stmts
  induction stmts with
  | nil => intro clock _; rfl
  | cons q rest ih =>
    intro clock h
    have hq := h q (by simp)
    have hb : execute_sql q (env Engine.bendsql q) = some (env Engine.bendsql q).stdout :=
      execute_sql_of_ne_none hq.1
    have hs : execute_sql q (env Engine.snowsql q) = some (env Engine.snowsql q).stdout :=
      execute_sql_of_ne_none hq.2
    have hrest := ih (clock + (env Engine.bendsql q).dur + (env Engine.snowsql q).dur)
      (fun x hx => h x (by simp [hx]))
    have harith : clock + (env Engine.bendsql q).dur + (env Engine.snowsql q).dur - clock =
        (env Engine.bendsql q).dur + (env Engine.snowsql q).dur := by omega
    by_cases heq : (env Engine.bendsql q).stdout = (env Engine.snowsql q).stdout
    · simp [run_check_loop, hb, hs, hrest, heq, specPassed, specFailed, specTrace, harith]
    · simp [run_check_loop, hb, hs, hrest, heq, specPassed, specFailed, specTrace, harith]

lemma spec_lengths (env : Env) :
    ∀ l : List String, (specPassed env l).length + (specFailed env l).length = l.length := by
  intro l
  induction l with
  | nil => rfl
  | cons q rest ih =>
    by_cases h : (env Engine.bendsql q).stdout = (env Engine.snowsql q).stdout <;>
      simp [specPassed, specFailed, h, ih] <;> omega

lemma specTrace_shape (env : Env) :
    ∀ (l : List String) (clock : Nat),
    (specTrace env clock l).map (fun e => (e.engine, e.query)) = enginePairs l := by
  intro l
  induction l with
  | nil => intro clock; rfl
  | cons q rest ih => intro clock; simp [specTrace, enginePairs, ih]

lemma specTrace_start (env : Env) :
    ∀ (l : List String) (clock : Nat) (e : ExecEv),
    (specTrace env clock l).head? = some e → e.startTime = clock := by
  intro l
  cases l with
  | nil => intro clock e h; simp [specTrace] at h
  | cons q rest =>
    intro clock e h
    simp only [specTrace, List.head?_cons, Option.some.injEq] at h
    rw [← h]

lemma specTrace_chain (env : Env) :
    ∀ (l : List String) (clock : Nat),
    List.Chain' (fun a b => a.endTime = b.startTime) (specTrace env clock l) := by
  intro l
  induction l with
  | nil => intro clock; simp [specTrace]
  | cons q rest ih =>
    intro clock
    simp only [specTrace]
    refine List.chain'_cons.mpr ⟨rfl, ?_⟩
    refine List.chain'_cons'.mpr ⟨?_, ih _⟩
    intro y hy
    rw [specTrace_start env rest _ y hy]

lemma specTrace_mono (env : Env) :
    ∀ (l : List String) (clock : Nat), ∀ e ∈ specTrace env clock l,
    e.startTime ≤ e.endTime := by
  intro l
  induction l with
  | nil => intro clock e he; simp [specTrace] at he
  | cons q rest ih =>
    intro clock e he
    simp only [specTrace, List.mem_cons] at he
    rcases he with rfl | rfl | he
    · exact Nat.le_add_right _ _
    · exact Nat.le_add_right _ _
    · exact ih _ e he

lemma run_check_loop_abort (env : Env) {q : String} :
    ∀ (stmts : List String) (clock : Nat), q ∈ stmts → ¬ NonFatal env q →
    run_check_loop env stmts clock = none := by
  intro stmts
  induction stmts with
  | nil => intro clock h; simp at h
  | cons a rest ih =>
    intro clock hmem hnf
    rcases List.mem_cons.mp hmem with rfl | hmem'
    · have hor : execute_sql q (env Engine.bendsql q) = none ∨
          execute_sql q (env Engine.snowsql q) = none := by
        by_contra hc
        push_neg at hc
        exact hnf ⟨hc.1, hc.2⟩
      rcases hor with hfb | hfs
      · simp [run_check_loop, hfb]
      · rcases hvb : execute_sql q (env Engine.bendsql q) with _ | v
        · simp [run_check_loop, hvb]
        · simp [run_check_loop, hvb, hfs]
    · rcases hvb : execute_sql a (env Engine.bendsql a) with _ | v
      · simp [run_check_loop, hvb]
      · rcases hvs : execute_sql a (env Engine.snowsql a) with _ | w
        · simp [run_check_loop, hvb, hvs]
        · simp [run_check_loop, hvb, hvs, ih _ hmem' hnf]

/-! ### Claim theorems -/

/-- C1: for every non-empty statement of the check script (given that no
statement's invocation is classified FatalError, which would terminate
the run — see C2), `run_check_sql` records exactly one record per
statement: a Match appended to `passed_tests` if and only if the bendsql
and snowsql result texts are exactly equal as strings, and otherwise
exactly one Mismatch preserving both engines' returned result texts
verbatim; a Mismatch never aborts the run, which always completes with
`passed_tests` and `failed_tests` as described by `specPassed` and
`specFailed`. -/
theorem run_check_sql_records_per_statement (env : Env) (script : String)
    (h : ∀ q ∈ script_statements script, NonFatal env q) :
    ∃ r : CheckReport, run_check_sql env script = some r ∧
      r.passed = specPassed env (script_statements script) ∧
      r.failed = specFailed env (script_statements script) ∧
      r.passed.length + r.failed.length = (script_statements script).length := by
  refine ⟨⟨specPassed env (script_statements script), specFailed env (script_statements script),
      specTrace env 0 (script_statements script)⟩, ?_, rfl, rfl, ?_⟩
  · exact run_check_loop_eq env (script_statements script) 0 h
  · exact spec_lengths env (script_statements script)

/-- C1 witness: a two-statement script against the concrete engine pair
`envW` (which agree on `SELECT 1` and disagree on `SELECT 2`). -/
theorem run_check_sql_records_per_statement_witness :
    ∃ r : CheckReport, run_check_sql envW "SELECT 1;SELECT 2" = some r ∧
      r.passed = specPassed envW (script_statements "SELECT 1;SELECT 2") ∧
      r.failed = specFailed envW (script_statements "SELECT 1;SELECT 2") ∧
      r.passed.length + r.failed.length = (script_statements "SELECT 1;SELECT 2").length :=
  run_check_sql_records_per_statement envW "SELECT 1;SELECT 2" (by decide)

/-- C2 counterexample: the code checks stdout and stderr *separately* for
the substring "error", so a match that only appears in the concatenated
stdout/stderr text (stdout `"err"`, stderr `"or"`) is not detected: the
invocation is classified Success and `execute_sql` returns stdout instead
of terminating, although the combined text contains "error" and the
statement is not a DROP-DATABASE statement. -/
theorem execute_sql_boundary_error_not_fatal :
    containsStr ("err" ++ "or") "error" = true ∧
    containsStr (lowerStr ("err" ++ "or")) "error" = true ∧
    containsStr "SELECT 1" "DROP DATABASE" = false ∧
    classify_sql "SELECT 1" "err" "or" = ExecClass.success ∧
    execute_sql "SELECT 1" ⟨"err", "or", 1, 0⟩ = some "err" := by decide

/-- C2 (amended): if stdout contains the case-insensitive substring
"error", or stderr contains it, or stdout contains the case-insensitive
substring "unknown function" (the code tests the two streams separately,
not their concatenation), and the statement does not contain
`DROP DATABASE`, then the invocation is classified FatalError,
`execute_sql` terminates the run (`sys.exit(1)`, modelled as `none`), and
any check run containing that statement aborts, whichever engine returned
that output; the process exit code alone is never treated as a failure
signal (`execute_sql` never consults it). -/
theorem execute_sql_error_text_fatal (q : String) (r : EngineResp)
    (herr : containsStr (lowerStr r.stdout) "error" = true ∨
            containsStr (lowerStr r.stderr) "error" = true ∨
            containsStr (lowerStr r.stdout) "unknown function" = true)
    (hq : containsStr q "DROP DATABASE" = false) :
    classify_sql q r.stdout r.stderr = ExecClass.fatalError ∧
    execute_sql q r = none ∧
    (∀ (env : Env) (e : Engine), env e q = r →
      ∀ script : String, q ∈ script_statements script → run_check_sql env script = none) ∧
    (∀ (q' out err : String) (c₁ c₂ : Int) (d₁ d₂ : Nat),
      execute_sql q' ⟨out, err, c₁, d₁⟩ = execute_sql q' ⟨out, err, c₂, d₂⟩) := by
  have hcls : classify_sql q r.stdout r.stderr = ExecClass.fatalError := by
    unfold classify_sql
    rw [hq]
    rcases herr with h | h | h <;> simp [h]
  have hnone : execute_sql q r = none := execute_sql_none_iff.mpr hcls
  refine ⟨hcls, hnone, ?_, fun q' out err c₁ c₂ d₁ d₂ => rfl⟩
  intro env e henv script hmem
  cases e with
  | bendsql =>
    exact run_check_loop_abort env (script_statements script) 0 hmem
      (fun hnf => hnf.1 (by rw [henv]; exact hnone))
  | snowsql =>
    exact run_check_loop_abort env (script_statements script) 0 hmem
      (fun hnf => hnf.2 (by rw [henv]; exact hnone))

/-- C2 witness: a non-DROP statement whose stdout contains "Error". -/
theorem execute_sql_error_text_fatal_witness :
    classify_sql "SELECT 1" "Error: bad" "" = ExecClass.fatalError ∧
    execute_sql "SELECT 1" ⟨"Error: bad", "", 2, 5⟩ = none := by
  have h := execute_sql_error_text_fatal "SELECT 1" ⟨"Error: bad", "", 2, 5⟩
    (Or.inl (by decide)) (by decide)
  exact ⟨h.1, h.2.1⟩

/-- C3: for every statement whose text contains `DROP DATABASE`,
`execute_sql` never produces a FatalError (never calls `sys.exit`)
whatever the engine's response: it always returns stdout as the result
text, and both when the combined output/error contains the
"Unknown database" phrase and when any error-pattern match occurs the
classification is ToleratedError. -/
theorem execute_sql_drop_database_never_fatal (q : String) (r : EngineResp)
    (hq : containsStr q "DROP DATABASE" = true) :
    execute_sql q r = some r.stdout ∧
    classify_sql q r.stdout r.stderr ≠ ExecClass.fatalError ∧
    (containsStr (r.stdout ++ r.stderr) "Unknown database" = true →
      classify_sql q r.stdout r.stderr = ExecClass.toleratedError) ∧
    ((containsStr (lowerStr r.stdout) "error" = true ∨
      containsStr (lowerStr r.stderr) "error" = true ∨
      containsStr (lowerStr r.stdout) "unknown function" = true) →
      classify_sql q r.stdout r.stderr = ExecClass.toleratedError) := by
  refine ⟨execute_sql_some (classify_drop_not_fatal hq), classify_drop_not_fatal hq, ?_, ?_⟩
  · intro hu
    unfold classify_sql
    rw [hq, hu]
    simp
  · intro herr
    unfold classify_sql
    rw [hq]
    by_cases hu : containsStr (r.stdout ++ r.stderr) "Unknown database" = true
    · rw [hu]
      simp
    · have hu' : containsStr (r.stdout ++ r.stderr) "Unknown database" = false := by
        cases hx : containsStr (r.stdout ++ r.stderr) "Unknown database"
        · rfl
        · exact absurd hx hu
      rw [hu']
      rcases herr with h | h | h <;> simp [h]

/-- C3 witness: a DROP DATABASE statement whose output reports an error
about an unknown database is tolerated and its stdout returned. -/
theorem execute_sql_drop_database_never_fatal_witness :
    execute_sql "DROP DATABASE x" ⟨"Error: Unknown database Xx", "", 1, 3⟩ =
      some "Error: Unknown database Xx" :=
  (execute_sql_drop_database_never_fatal "DROP DATABASE x"
    ⟨"Error: Unknown database Xx", "", 1, 3⟩ (by decide)).1

/-- C4 counterexample: splitting keeps the raw fragments unstripped — in
`"SELECT 1; SELECT 2"` the second processed statement is `" SELECT 2"`,
which still carries its leading whitespace, so the produced statements
are not whitespace-trimmed. -/
theorem script_statements_untrimmed :
    script_statements "SELECT 1; SELECT 2" = ["SELECT 1", " SELECT 2"] ∧
    stripStr " SELECT 2" ≠ " SELECT 2" := by decide

/-- C4 (amended): splitting a script on the statement terminator yields
an ordered subsequence of the raw split fragments — exactly those whose
whitespace-trimmed form is non-empty (the kept fragments themselves are
*not* trimmed); empty and whitespace-only fragments are dropped; and the
splitting is idempotent: re-splitting the same fixture yields the same
sequence (the function is deterministic), and each produced statement
re-splits to exactly itself. -/
theorem script_statements_ordered_filter (s : String) :
    (script_statements s).Sublist (split_on_semicolons s) ∧
    (∀ q ∈ script_statements s, stripStr q ≠ "") ∧
    (∀ q ∈ split_on_semicolons s, stripStr q = "" → q ∉ script_statements s) ∧
    (∀ q ∈ script_statements s, script_statements q = [q]) := by
  refine ⟨List.filter_sublist _, ?_, ?_, ?_⟩
  · intro q hq hcontra
    have hpred := (List.mem_filter.mp hq).2
    have hdata : stripChars q.data = [] := congrArg String.data hcontra
    rw [hdata] at hpred
    simp at hpred
  · intro q _ hstrip hmem
    have hpred := (List.mem_filter.mp hmem).2
    have hdata : stripChars q.data = [] := congrArg String.data hstrip
    rw [hdata] at hpred
    simp at hpred
  · intro q hq
    obtain ⟨f, hf, hfe⟩ : ∃ f, f ∈ splitOnChar ';' s.data ∧ (⟨f⟩ : String) = q := by
      have hq' := (List.mem_filter.mp hq).1
      unfold split_on_semicolons at hq'
      exact List.mem_map.mp hq'
    subst hfe
    have hnosep : ';' ∉ f := sep_not_mem_splitOnChar ';' s.data f hf
    have hsingle : splitOnChar ';' (⟨f⟩ : String).data = [f] := splitOnChar_no_sep ';' f hnosep
    have hpred := (List.mem_filter.mp hq).2
    unfold script_statements split_on_semicolons
    rw [hsingle]
    simp only [List.map_cons, List.map_nil, List.filter]
    rw [hpred]

/-- C4 witness: a statement with leading whitespace is kept as-is and
re-splits to itself. -/
theorem script_statements_ordered_filter_witness :
    script_statements " SELECT 1" = [" SELECT 1"] :=
  (script_statements_ordered_filter "a; SELECT 1").2.2.2 " SELECT 1" (by decide)

/-- C5 counterexample: the drop statement that `setup_database` issues
for the embedded engine is `DROP DATABASE IF EXISTS {db};` — it *does*
contain `IF EXISTS`, contradicting the claim that the drop is issued
without `IF EXISTS`. -/
theorem setup_database_bendsql_if_exists :
    (setup_database (fun _ _ => ⟨"", "", 0, 0⟩) "db1" Engine.bendsql).calls.head? =
      some ⟨"DROP DATABASE IF EXISTS db1;", "default"⟩ ∧
    containsStr "DROP DATABASE IF EXISTS db1;" "IF EXISTS" = true := by decide

/-- C5 (amended): provisioning the embedded engine (bendsql) issues
`DROP DATABASE IF EXISTS {db};` against the `"default"` bootstrap
database connection, then `CREATE DATABASE {db};` against the same
bootstrap connection; whatever the engine answers to the drop — including
the nonexistent-database case — the drop never fatally fails (DROP
DATABASE statements are never classified FatalError, and other drop
failures are swallowed by a local handler), the create is always issued,
and the provisioning aborts only if the create itself is classified
FatalError. -/
theorem setup_database_bendsql_drop_then_create (env : Env) (db : String) :
    (setup_database env db Engine.bendsql).calls =
      [⟨"DROP DATABASE IF EXISTS " ++ db ++ ";", "default"⟩,
       ⟨"CREATE DATABASE " ++ db ++ ";", "default"⟩] ∧
    ((setup_database env db Engine.bendsql).fatal = false ↔
      execute_sql ("CREATE DATABASE " ++ db ++ ";")
        (env Engine.bendsql ("CREATE DATABASE " ++ db ++ ";")) ≠ none) := by
  have hdrop : execute_sql ("DROP DATABASE IF EXISTS " ++ db ++ ";")
      (env Engine.bendsql ("DROP DATABASE IF EXISTS " ++ db ++ ";")) =
      some (env Engine.bendsql ("DROP DATABASE IF EXISTS " ++ db ++ ";")).stdout :=
    execute_sql_some (classify_drop_not_fatal (containsStr_dropQ db))
  rcases hcr : execute_sql ("CREATE DATABASE " ++ db ++ ";")
      (env Engine.bendsql ("CREATE DATABASE " ++ db ++ ";")) with _ | v
  · simp [setup_database, hdrop, hcr]
  · simp [setup_database, hdrop, hcr]

/-- C5 witness: provisioning against an engine that reports an unknown
database on every query still issues the drop and then the create. -/
theorem setup_database_bendsql_drop_then_create_witness :
    (setup_database (fun _ _ => ⟨"Info: Unknown database db1", "", 1, 1⟩) "db1"
        Engine.bendsql).calls =
      [⟨"DROP DATABASE IF EXISTS db1;", "default"⟩,
       ⟨"CREATE DATABASE db1;", "default"⟩] := by
  have h := (setup_database_bendsql_drop_then_create
    (fun _ _ => ⟨"Info: Unknown database db1", "", 1, 1⟩) "db1").1
  exact h.trans (by decide)

/-- C6: for a check-script statement beginning with a leading inline
comment matching `-- <token>:`, the extracted identifier is exactly that
token; for a statement containing no occurrence of the pattern, the
identifier is the sentinel "Unknown Query". -/
theorem query_identifier_extraction :
    (∀ ws tok rest : List Char,
      (∀ c ∈ ws, pyIsSpace c = true) → tok ≠ [] → (∀ c ∈ tok, isIdentChar c = true) →
      query_identifier ⟨'-' :: '-' :: (ws ++ tok ++ ':' :: rest)⟩ = ⟨tok⟩) ∧
    (∀ q : String, ¬ HasIdentComment q.data → query_identifier q = "Unknown Query") := by
  constructor
  · intro ws tok rest hws htok hc
    exact query_identifier_of_leading hws htok hc
  · intro q hnot
    rcases hs : searchIdent q.data with _ | tok
    · unfold query_identifier
      rw [hs]
    · exact absurd (searchIdent_sound hs) hnot

/-- C6 witness: the spec's own example `-- MERGE-INTO-C13: comment` and a
comment-free statement. -/
theorem query_identifier_extraction_witness :
    query_identifier
        ⟨'-' :: '-' :: ([' '] ++ "MERGE-INTO-C13".data ++ ':' :: " comment\nMERGE INTO t1".data)⟩ =
      ⟨"MERGE-INTO-C13".data⟩ ∧
    query_identifier "SELECT 1" = "Unknown Query" := by
  constructor
  · exact query_identifier_extraction.1 [' '] "MERGE-INTO-C13".data " comment\nMERGE INTO t1".data
      (by decide) (by decide) (by decide)
  · exact query_identifier_extraction.2 "SELECT 1"
      (fun h => absurd (hasIdentComment_dash h) (by decide))

/-- C7: under the same no-FatalError premise as C1, the run completes and
its invocation trace is strictly sequential: the executed (engine,
statement) pairs are exactly, in order, bendsql then snowsql for each
statement in file order; each invocation ends exactly when the next one
starts (so bendsql's execution for a statement completes before snowsql's
begins); time never flows backwards inside an invocation; and each passed
record's elapsed time is the sum of that statement's bendsql and snowsql
durations, i.e. it spans both executions. -/
theorem run_check_sql_sequential_trace (env : Env) (script : String)
    (h : ∀ q ∈ script_statements script, NonFatal env q) :
    ∃ r : CheckReport, run_check_sql env script = some r ∧
      r.trace.map (fun e => (e.engine, e.query)) = enginePairs (script_statements script) ∧
      List.Chain' (fun a b => a.endTime = b.startTime) r.trace ∧
      (∀ e ∈ r.trace, e.startTime ≤ e.endTime) ∧
      r.passed = specPassed env (script_statements script) := by
  refine ⟨⟨specPassed env (script_statements script), specFailed env (script_statements script),
      specTrace env 0 (script_statements script)⟩, ?_, ?_, ?_, ?_, rfl⟩
  · exact run_check_loop_eq env (script_statements script) 0 h
  · exact specTrace_shape env (script_statements script) 0
  · exact specTrace_chain env (script_statements script) 0
  · exact specTrace_mono env (script_statements script) 0

/-- C7 witness: the sequential trace for a concrete two-statement run. -/
theorem run_check_sql_sequential_trace_witness :
    ∃ r : CheckReport, run_check_sql envW "SELECT 1;SELECT 2" = some r ∧
      r.trace.map (fun e => (e.engine, e.query)) =
        enginePairs (script_statements "SELECT 1;SELECT 2") ∧
      List.Chain' (fun a b => a.endTime = b.startTime) r.trace ∧
      (∀ e ∈ r.trace, e.startTime ≤ e.endTime) ∧
      r.passed = specPassed envW (script_statements "SELECT 1;SELECT 2") :=
  run_check_sql_sequential_trace envW "SELECT 1;SELECT 2" (by decide)

/-- C8: the Run Orchestrator mode pipelines.  With `--run-check-only`
only the Comparator runs against `check.sql` (no provisioning, no
setup/action scripts); with `--runbend` (resp. `--runsnow`) only that
engine's pipeline — provision, setup.sql, action.sql — runs, followed by
the Comparator (which always drives both engines, see C7); in the default
mode the complete bendsql pipeline precedes the complete snowsql
pipeline, and the Comparator runs after both. -/
theorem main_mode_pipelines (db wh cs : String) (rb rs : Bool) :
    Checksb.main ⟨db, wh, true, cs, rb, rs⟩ =
      [Step.check db wh ("sql/" ++ cs ++ "/check.sql")] ∧
    Checksb.main ⟨db, wh, false, cs, true, rs⟩ =
      [Step.provision Engine.bendsql db,
       Step.runScript Engine.bendsql ("sql/" ++ cs ++ "/" ++ "bend" ++ "/setup.sql") db none,
       Step.runScript Engine.bendsql ("sql/" ++ cs ++ "/action.sql") db none,
       Step.check db wh ("sql/" ++ cs ++ "/check.sql")] ∧
    Checksb.main ⟨db, wh, false, cs, false, true⟩ =
      [Step.provision Engine.snowsql db,
       Step.runScript Engine.snowsql ("sql/" ++ cs ++ "/" ++ "snow" ++ "/setup.sql") db (some wh),
       Step.runScript Engine.snowsql ("sql/" ++ cs ++ "/action.sql") db (some wh),
       Step.check db wh ("sql/" ++ cs ++ "/check.sql")] ∧
    Checksb.main ⟨db, wh, false, cs, false, false⟩ =
      [Step.provision Engine.bendsql db,
       Step.runScript Engine.bendsql ("sql/" ++ cs ++ "/" ++ "bend" ++ "/setup.sql") db none,
       Step.runScript Engine.bendsql ("sql/" ++ cs ++ "/action.sql") db none,
       Step.provision Engine.snowsql db,
       Step.runScript Engine.snowsql ("sql/" ++ cs ++ "/" ++ "snow" ++ "/setup.sql") db (some wh),
       Step.runScript Engine.snowsql ("sql/" ++ cs ++ "/action.sql") db (some wh),
       Step.check db wh ("sql/" ++ cs ++ "/check.sql")] :=
  ⟨rfl, rfl, rfl, rfl⟩

/-- C8 witness: the pipelines at concrete argument values. -/
theorem main_mode_pipelines_witness :
    Checksb.main ⟨"db", "wh", true, "sel", false, false⟩ =
      [Step.check "db" "wh" ("sql/" ++ "sel" ++ "/check.sql")] :=
  (main_mode_pipelines "db" "wh" "sel" false false).1

/-- C9: the test identifier comes from the first occurrence of the
pattern `-- <token>:` anywhere in the statement text (`re.search` scans
the whole statement), not only from the first line: whenever the pattern
occurrence is preceded only by hyphen-free text — which may contain
newlines — the extracted identifier is that occurrence's token rather
than "Unknown Query". -/
theorem query_identifier_first_match_anywhere (pre ws tok rest : List Char)
    (hpre : ∀ c ∈ pre, c ≠ '-')
    (hws : ∀ c ∈ ws, pyIsSpace c = true) (htok : tok ≠ [])
    (hc : ∀ c ∈ tok, isIdentChar c = true) :
    query_identifier ⟨pre ++ '-' :: '-' :: (ws ++ tok ++ ':' :: rest)⟩ = ⟨tok⟩ := by
  have hs : searchIdent (⟨pre ++ '-' :: '-' :: (ws ++ tok ++ ':' :: rest)⟩ : String).data =
      some tok := by
    show searchIdent (pre ++ '-' :: '-' :: (ws ++ tok ++ ':' :: rest)) = some tok
    rw [searchIdent_skip hpre]
    exact searchIdent_of_matched (matchIdentAt_pattern hws htok hc)
  unfold query_identifier
  rw [hs]
  show stripStr ⟨tok⟩ = ⟨tok⟩
  exact congrArg (fun l => (⟨l⟩ : String)) (stripChars_ident hc)

/-- C9 witness: a statement whose only identifier comment sits on its
second line still gets that token. -/
theorem query_identifier_first_match_anywhere_witness :
    query_identifier
        ⟨"SELECT 1\n".data ++ '-' :: '-' :: ([' '] ++ "FOO-1".data ++ ':' :: " x".data)⟩ =
      ⟨"FOO-1".data⟩ :=
  query_identifier_first_match_anywhere "SELECT 1\n".data [' '] "FOO-1".data " x".data
    (by decide) (by decide) (by decide) (by decide)

/-- C10: the DROP-DATABASE tolerance checks are case-sensitive.  The
statement-shape test is the exact substring `DROP DATABASE` (a lowercase
`drop database x` does not pass it), the tolerated phrase is the exact
substring `Unknown database` (a lowercase `unknown database` does not
trigger the tolerance branch), and consequently a lowercase drop
statement whose output contains "Error" is classified FatalError and
terminates the run, while the uppercase spelling is tolerated. -/
theorem execute_sql_drop_checks_case_sensitive :
    containsStr "drop database x" "DROP DATABASE" = false ∧
    containsStr "DROP DATABASE x" "DROP DATABASE" = true ∧
    classify_sql "drop database x" "Error: Unknown database Xx" "" = ExecClass.fatalError ∧
    execute_sql "drop database x" ⟨"Error: Unknown database Xx", "", 0, 0⟩ = none ∧
    classify_sql "DROP DATABASE x" "Error: Unknown database Xx" "" = ExecClass.toleratedError ∧
    classify_sql "DROP DATABASE x" "unknown database q" "" = ExecClass.success ∧
    classify_sql "DROP DATABASE x" "Unknown database q" "" = ExecClass.toleratedError := by
  decide
